import Mathlib

/-
Verification of the inventory_foundation_sdk repository.

Shallow embedding of the two source modules:
  * src/inventory_foundation_sdk/db_mgmt.py
      - insert_multi_rows        (bulk insert / upsert-returning-IDs)
      - check_in_scope_entries   (set-difference backfill of missing rows)
  * src/inventory_foundation_sdk/kedro_orchestration.py
      - verify_db_write_status   (boolean AND of success flags)

Database interaction is modelled explicitly: the cursor and connection are
represented by an event trace (executed statements and commits), and the
target table of the upsert mode is an explicit state with a serial ID counter.
Python cell values are modelled by an inductive Value type, with NaN or None
modelled as Value.vnull; Python type constructors (the entries of the types
argument) are modelled as partial coercion functions Value to Option Value,
returning none exactly when the Python call would raise.
-/

namespace InvSdk

/-- A cell value of a pandas DataFrame, as seen by db_mgmt.py. NaN and None
are both modelled as vnull. -/
inductive Value where
  | vint (n : Int)
  | vstr (s : String)
  | vnull
deriving DecidableEq

/-- A Python type constructor used for coercion (entry of the types list of
insert_multi_rows): applied to a cell value, it either returns the coerced
value or fails (none), modelling the exception the Python call would raise. -/
def Ty : Type := Value → Option Value

/-- Errors raised by the embedded functions. ValueError on malformed caller
input is modelled as invalidArgument, an exception raised by a type
constructor during coercion as typeCoercion (carrying the offending value,
as the Python error message does), an error surfaced by the database
driver as databaseError, and a NameError from referencing an undefined
name as nameError. -/
inductive Err where
  | invalidArgument (msg : String)
  | typeCoercion (v : Value)
  | databaseError (msg : String)
  | nameError (msg : String)
deriving DecidableEq

/-- A pandas DataFrame: ordered column labels and row-major cell values. -/
structure DataFrame where
  cols : List String
  rows : List (List Value)
deriving DecidableEq

/-- data_to_insert.isnull().values.any() of the source. -/
def DataFrame.hasNulls (df : DataFrame) : Bool :=
  df.rows.any (fun r => r.any (fun v => match v with
    | Value.vnull => true
    | _ => false))

/-- Assigning a column of a DataFrame, df[name] = vals: pandas overwrites the
values of an existing column of that label and otherwise appends a new last
column. -/
def DataFrame.setColumn (df : DataFrame) (name : String) (vals : List Value) : DataFrame :=
  if df.cols.contains name then
    ⟨df.cols, (df.rows.zip vals).map (fun p =>
      ((df.cols.zip p.1).map (fun c => if c.1 = name then p.2 else c.2)))⟩
  else
    ⟨df.cols ++ [name], (df.rows.zip vals).map (fun p => p.1 ++ [p.2])⟩

/-- A DataFrame extended by a genuinely new last column (what appending an
extra field to every record means when no column of that label exists). -/
def appendColumn (df : DataFrame) (name : String) (vals : List Value) : DataFrame :=
  ⟨df.cols ++ [name], (df.rows.zip vals).map (fun p => p.1 ++ [p.2])⟩

/-- Coerce one record: tuple(typ(val) for typ, val in zip(types, row)),
pairing types with values positionally (zip truncates at the shorter list).
Fails at the leftmost value whose type constructor raises. -/
def coerceRow : List Ty → List Value → Except Err (List Value)
  | t :: ts, v :: vs =>
    match t v with
    | none => Except.error (Err.typeCoercion v)
    | some w => (coerceRow ts vs).map (fun l => w :: l)
  | _, _ => Except.ok []

/-- Coerce all records in row order (line 82 of db_mgmt.py); the first
failing value in row-major order is reported. -/
def coerceRows (types : List Ty) : List (List Value) → Except Err (List (List Value))
  | [] => Except.ok []
  | row :: rest =>
    match coerceRow types row with
    | Except.error e => Except.error e
    | Except.ok r => (coerceRows types rest).map (fun l => r :: l)

/-- The SQL statements insert_multi_rows prepares. The second constructor is
the mode-B statement: INSERT .. ON CONFLICT (conflictCols) DO UPDATE SET
touched = EXCLUDED.touched RETURNING returningCol, which touches the column
touched with its own (excluded) value so that a row is always returned. -/
inductive Query where
  | insertOnConflictDoNothing (table : String) (cols : List String)
  | insertOnConflictUpdateSelfReturning (table : String) (cols : List String)
      (conflictCols : List String) (touched : String) (returningCol : String)
deriving DecidableEq

/-- Calls issued on the cursor / connection, in order. -/
inductive Event where
  | exec (q : Query) (args : List Value)
  | commit
deriving DecidableEq

/-- The table targeted by the mode-B upsert: stored rows with their "ID"
column value (the explicitly inserted value when the insert lists the ID
column, the serial default otherwise), plus the next serial value. -/
structure Table where
  rows : List (Value × List Value)
  nextId : Nat
deriving DecidableEq

/-- Projection of an inserted row (laid out by cols) onto the conflict-target
columns, determining uniqueness. -/
def projKey (cols ucols : List String) (row : List Value) : List (Option Value) :=
  ucols.map (fun c => ((cols.indexOf? c).bind (fun i => row.get? i)))

/-- PostgreSQL semantics of the mode-B statement on one row: on a conflict
with an existing row on the conflict-target columns, the do-update touches
the first unique column with its own excluded value (a no-op, since the
conflict means those columns already agree) and RETURNING yields the
existing row's ID value; otherwise the row is inserted - its ID column
holding the explicitly supplied value when the ID column is among the
inserted columns (the serial sequence is not consumed), and the next
serial value otherwise - and that ID is returned. Exactly one ID is
returned either way. -/
def Table.upsert (t : Table) (cols ucols : List String) (row : List Value) : Value × Table :=
  match t.rows.find? (fun r => decide (projKey cols ucols r.2 = projKey cols ucols row)) with
  | some hit => (hit.1, t)
  | none =>
    match cols.indexOf? "ID" with
    | some i =>
      let idv := row.getD i Value.vnull
      (idv, ⟨t.rows ++ [(idv, row)], t.nextId⟩)
    | none =>
      (Value.vint (Int.ofNat t.nextId),
        ⟨t.rows ++ [(Value.vint (Int.ofNat t.nextId), row)], t.nextId + 1⟩)

/-- Python truthiness of an optional list: None and the empty list are falsy. -/
def pyTruthy {α : Type} (o : Option (List α)) : Bool :=
  match o with
  | none => false
  | some l => !l.isEmpty

/-- x or [] in Python: the list when truthy, otherwise the empty list. -/
def pyList {α : Type} (o : Option (List α)) : List α :=
  match o with
  | none => []
  | some l => l

/-- The mode-A loop of insert_multi_rows (lines 137 to 143): execute the
insert for each row, incrementing row_count and committing whenever
row_count is a multiple of the commit interval. Returns the cursor and
connection calls issued. -/
def modeALoop (q : Query) (bs : Nat) : List (List Value) → Nat → List Event
  | [], _ => []
  | r :: rs, rc =>
    Event.exec q r ::
      ((if (rc + 1) % bs = 0 then [Event.commit] else []) ++ modeALoop q bs rs (rc + 1))

/-- The mode-B loop of insert_multi_rows (lines 110 to 121): execute the
upsert for each row, fetch the returned ID (always present, so the
if row_id guard always appends), commit at every full interval. Returns
the collected IDs, the final table state and the calls issued. -/
def modeBLoop (q : Query) (cols ucols : List String) (bs : Nat) :
    List (List Value) → Table → Nat → List Value × Table × List Event
  | [], db, _ => ([], db, [])
  | r :: rs, db, rc =>
    let step := db.upsert cols ucols r
    let rest := modeBLoop q cols ucols bs rs step.2 (rc + 1)
    (step.1 :: rest.1, rest.2.1,
      Event.exec q r ::
        ((if (rc + 1) % bs = 0 then [Event.commit] else []) ++ rest.2.2))

instance exceptDecEq {ε α : Type} [DecidableEq ε] [DecidableEq α] :
    DecidableEq (Except ε α)
  | Except.error e, Except.error f =>
    if h : e = f then Decidable.isTrue (by rw [h])
    else Decidable.isFalse (by intro hh; injection hh; exact h (by assumption))
  | Except.error _, Except.ok _ => Decidable.isFalse (by intro hh; injection hh)
  | Except.ok _, Except.error _ => Decidable.isFalse (by intro hh; injection hh)
  | Except.ok a, Except.ok b =>
    if h : a = b then Decidable.isTrue (by rw [h])
    else Decidable.isFalse (by intro hh; injection hh; exact h (by assumption))

/-- The observable outcome of one call to insert_multi_rows: whether the NaN
warning was logged (never: the module defines no logger, so reaching the
logging call raises NameError instead), the returned value or raised
error, the value of the caller-supplied DataFrame object after the call
(the source never assigns into it; the ID column is written into a copy),
the cursor and connection calls issued, and the final state of the target
table. -/
structure RunResult where
  warned : Bool
  outcome : Except Err (Option DataFrame)
  inputAfter : DataFrame
  trace : List Event
  db : Table
deriving DecidableEq

/-- Shallow embedding of insert_multi_rows (db_mgmt.py lines 40 to 147).
The module defines no logger (the logger.info lines are commented out), so
when the NaN check of line 69 finds a null the logging call of line 70
raises NameError: nothing is logged and the call aborts there, before the
count checks, coercion or any cursor call. The commit interval
batch_size_for_commit is the local constant of line 90 (1000000, with a
source comment inviting adjustment), taken here as a parameter. -/
def insert_multi_rows (data_to_insert : DataFrame) (table_name : String)
    (column_names : List String) (types : List Ty) (db : Table)
    (return_with_ids : Bool) (unique_columns : Option (List String))
    (batch_size_for_commit : Nat) : RunResult :=
  if data_to_insert.hasNulls then
    ⟨false, Except.error (Err.nameError "name logger is not defined"),
      data_to_insert, [], db⟩
  else if column_names.length ≠ data_to_insert.cols.length then
    ⟨false, Except.error (Err.invalidArgument
      "Number of column names does not match the number of columns in the DataFrame."),
      data_to_insert, [], db⟩
  else if types.length ≠ data_to_insert.cols.length then
    ⟨false, Except.error (Err.invalidArgument
      "Number of types does not match the number of columns in the DataFrame."),
      data_to_insert, [], db⟩
  else
    match coerceRows types data_to_insert.rows with
    | Except.error e => ⟨false, Except.error e, data_to_insert, [], db⟩
    | Except.ok data_values =>
      if return_with_ids then
        match pyList unique_columns with
        | [] =>
          ⟨false, Except.error (Err.invalidArgument
            "unique_columns must be provided when return_with_ids is True"),
            data_to_insert, [], db⟩
        | uc0 :: ucr =>
          let q := Query.insertOnConflictUpdateSelfReturning table_name column_names
            (uc0 :: ucr) uc0 "ID"
          let res := modeBLoop q column_names (uc0 :: ucr) batch_size_for_commit
            data_values db 0
          let data_with_ids := data_to_insert.setColumn "ID" res.1
          ⟨false, Except.ok (some data_with_ids), data_to_insert,
            res.2.2 ++ [Event.commit], res.2.1⟩
      else
        let q := Query.insertOnConflictDoNothing table_name column_names
        ⟨false, Except.ok none, data_to_insert,
          modeALoop q batch_size_for_commit data_values 0 ++ [Event.commit], db⟩

/-- Shallow embedding of verify_db_write_status (kedro_orchestration.py,
lines 12 to 29): Python all over the variadic boolean arguments. -/
def verify_db_write_status (args : List Bool) : Bool :=
  args.all id

/-- Model of the Python int constructor: succeeds on integer values, raises
on NaN or None and on non-numeric strings (modelled: fails on everything
that is not already an integer). Used as a concrete types entry. -/
def tyInt : Ty := fun v =>
  match v with
  | Value.vint n => some (Value.vint n)
  | _ => none

/-- A coercion that accepts every value unchanged (model of a Python
constructor that never raises on the data at hand, such as str). -/
def tyAny : Ty := fun v => some v

/-- Number of commit calls in a trace. -/
def countCommits : List Event → Nat
  | [] => 0
  | Event.commit :: t => countCommits t + 1
  | Event.exec _ _ :: t => countCommits t

/-- Number of executed statements in a trace. -/
def countExecs : List Event → Nat
  | [] => 0
  | Event.exec _ _ :: t => countExecs t + 1
  | Event.commit :: t => countExecs t

/-- The database state check_in_scope_entries works against: the reference
table dataset_matching projected onto the identifier and dataset columns it
is queried on, and the target table with rows given as association lists
from column label to value. -/
structure ScopeDB where
  dataset_matching : List (Value × Value)
  target : List (List (String × Value))
deriving DecidableEq

/-- One INSERT .. ON CONFLICT (conflictColumns) DO NOTHING statement emitted
by check_in_scope_entries, with the effective inserted row: the SQL literal
zeros of the insert-argument columns appear as value 0. -/
structure InsertStmt where
  table : String
  columns : List String
  values : List Value
  conflictColumns : List String
deriving DecidableEq

/-- Observable outcome of one call to check_in_scope_entries: the returned
unit or raised error, how many SELECT statements were executed before the
outcome, the set of insert statements executed (a set, as the source
iterates a Python set with no ordering guarantee), and whether the final
commit ran. -/
structure ScopeResult where
  outcome : Except Err Unit
  selectCount : Nat
  inserts : Finset InsertStmt
  committed : Bool

/-- The scope universe (step 1 of the source, lines 183 to 188): all
identifier values in dataset_matching whose dataset column equals the
partition key, collected into a set. -/
def scopeUniverse (db : ScopeDB) (dataset_id : Value) : Finset Value :=
  ((db.dataset_matching.filter (fun p => decide (p.2 = dataset_id))).map Prod.fst).toFinset

/-- The identifiers already present (step 2, lines 190 to 206): distinct
identifier values of target rows whose dataset column equals the partition
key and whose extra key columns, when supplied, equal their fixed values. -/
def scopeExisting (db : ScopeDB) (dataset_column id_column : String)
    (dataset_id : Value) (fks : List String) (fvs : List Value) : Finset Value :=
  ((db.target.filter (fun row =>
      decide (row.lookup dataset_column = some dataset_id) &&
        (fks.zip fvs).all (fun p => decide (row.lookup p.1 = some p.2)))).filterMap
    (fun row => row.lookup id_column)).toFinset

/-- The insert statement built for one missing identifier (lines 214 to 236):
columns are the identifier and dataset columns, then the insert-argument
columns (bound to the SQL literal 0), then the extra key columns; the
conflict target is the full key tuple and conflicts do nothing. -/
def scopeInsertStmt (target_table dataset_column id_column : String)
    (insert_arguments : List String) (dataset_id : Value)
    (fks : List String) (fvs : List Value) (sku : Value) : InsertStmt :=
  ⟨target_table,
    [id_column, dataset_column] ++ insert_arguments ++ fks,
    [sku, dataset_id] ++ List.replicate insert_arguments.length (Value.vint 0) ++ fvs,
    [id_column, dataset_column] ++ fks⟩

/-- Shallow embedding of check_in_scope_entries (db_mgmt.py lines 150 to
252). The two driver-level parameter-count mismatches (placeholders built
from the key-name list versus arguments built from the value list) are
modelled as databaseError, since psycopg2 raises there; the except clause
of the source logs and re-raises, so the error is the outcome. -/
def check_in_scope_entries (target_table dataset_column id_column : String)
    (insert_arguments : List String) (credentials : String) (db : ScopeDB)
    (dataset_id : Value) (filter : Option Value)
    (further_primary_keys : Option (List String))
    (further_primary_keys_values : Option (List Value)) : ScopeResult :=
  if (further_primary_keys.isNone) ≠ (further_primary_keys_values.isNone) then
    ⟨Except.error (Err.invalidArgument
      "Both further_primary_keys and further_primary_keys_values must be provided together."),
      0, ∅, false⟩
  else
    let fks := pyList further_primary_keys
    let fvs := pyList further_primary_keys_values
    let all_sku_ids := scopeUniverse db dataset_id
    if pyTruthy further_primary_keys && !(fks.length == fvs.length) then
      ⟨Except.error (Err.databaseError "parameter count mismatch in WHERE clause"),
        1, ∅, false⟩
    else
      let existing_sku_ids := scopeExisting db dataset_column id_column dataset_id fks fvs
      let missing_sku_ids := all_sku_ids \ existing_sku_ids
      if missing_sku_ids = ∅ then
        ⟨Except.ok (), 2, ∅, false⟩
      else if fks.length ≠ fvs.length then
        ⟨Except.error (Err.databaseError "parameter count mismatch in INSERT"),
          2, ∅, false⟩
      else
        ⟨Except.ok (), 2,
          missing_sku_ids.image (scopeInsertStmt target_table dataset_column id_column
            insert_arguments dataset_id fks fvs),
          true⟩

/-! Helper lemmas about the embedded loops and traces. -/

lemma getLast?_append_singleton {α : Type} (l : List α) (a : α) :
    (l ++ [a]).getLast? = some a := by
  rw [List.getLast?_append_cons]
  rfl

lemma coerceRows_length (tys : List Ty) :
    ∀ (rows : List (List Value)) (dvs : List (List Value)),
      coerceRows tys rows = Except.ok dvs → dvs.length = rows.length := by
  intro rows
  induction rows with
  | nil =>
    intro dvs h
    simp only [coerceRows] at h
    injection h with h
    simp [← h]
  | cons r rs ih =>
    intro dvs h
    simp only [coerceRows] at h
    cases hcr : coerceRow tys r with
    | error e => rw [hcr] at h; exact absurd h (by simp)
    | ok v =>
      rw [hcr] at h
      cases hrest : coerceRows tys rs with
      | error e => rw [hrest] at h; exact absurd h (by simp [Except.map])
      | ok l =>
        rw [hrest] at h
        simp only [Except.map] at h
        injection h with h
        simp [← h, ih l hrest]

lemma countCommits_append (a b : List Event) :
    countCommits (a ++ b) = countCommits a + countCommits b := by
  induction a with
  | nil => simp [countCommits]
  | cons e t ih => cases e <;> simp [countCommits, ih] <;> omega

lemma countExecs_append (a b : List Event) :
    countExecs (a ++ b) = countExecs a + countExecs b := by
  induction a with
  | nil => simp [countExecs]
  | cons e t ih => cases e <;> simp [countExecs, ih] <;> omega

lemma modeALoop_countExecs (q : Query) (bs : Nat) :
    ∀ (rows : List (List Value)) (rc : Nat),
      countExecs (modeALoop q bs rows rc) = rows.length := by
  intro rows
  induction rows with
  | nil => intro rc; simp [modeALoop, countExecs]
  | cons r rs ih =>
    intro rc
    by_cases hb : (rc + 1) % bs = 0 <;>
      simp [modeALoop, hb, countExecs, countExecs_append, ih]

lemma modeALoop_countCommits (q : Query) (bs : Nat) :
    ∀ (rows : List (List Value)) (rc : Nat),
      countCommits (modeALoop q bs rows rc) + rc / bs = (rc + rows.length) / bs := by
  intro rows
  induction rows with
  | nil => intro rc; simp [modeALoop, countCommits]
  | cons r rs ih =>
    intro rc
    have hstep : (rc + 1) / bs = rc / bs + if bs ∣ rc + 1 then 1 else 0 :=
      Nat.succ_div rc bs
    have hloop := ih (rc + 1)
    have harr : rc + (r :: rs).length = rc + 1 + rs.length := by
      simp only [List.length_cons]
      omega
    rw [harr]
    by_cases hb : (rc + 1) % bs = 0
    · have hdvd : bs ∣ rc + 1 := Nat.dvd_iff_mod_eq_zero.mpr hb
      rw [if_pos hdvd] at hstep
      have hgoal : countCommits (modeALoop q bs (r :: rs) rc)
          = countCommits (modeALoop q bs rs (rc + 1)) + 1 := by
        simp [modeALoop, hb, countCommits, countCommits_append]
      rw [hgoal]
      generalize (rc + 1 + rs.length) / bs = A at *
      generalize (rc + 1) / bs = B at *
      generalize rc / bs = C at *
      omega
    · have hdvd : ¬ bs ∣ rc + 1 := fun hd => hb (Nat.dvd_iff_mod_eq_zero.mp hd)
      rw [if_neg hdvd] at hstep
      have hgoal : countCommits (modeALoop q bs (r :: rs) rc)
          = countCommits (modeALoop q bs rs (rc + 1)) := by
        simp [modeALoop, hb, countCommits, countCommits_append]
      rw [hgoal]
      generalize (rc + 1 + rs.length) / bs = A at *
      generalize (rc + 1) / bs = B at *
      generalize rc / bs = C at *
      omega

lemma modeALoop_mem (q : Query) (bs : Nat) :
    ∀ (rows : List (List Value)) (rc : Nat) (e : Event), e ∈ modeALoop q bs rows rc →
      e = Event.commit ∨ ∃ r, r ∈ rows ∧ e = Event.exec q r := by
  intro rows
  induction rows with
  | nil => intro rc e h; simp [modeALoop] at h
  | cons r rs ih =>
    intro rc e h
    simp only [modeALoop, List.mem_cons, List.mem_append] at h
    rcases h with h | h | h
    · exact Or.inr ⟨r, by simp, h⟩
    · by_cases hb : (rc + 1) % bs = 0
      · rw [if_pos hb] at h
        simp at h
        exact Or.inl h
      · rw [if_neg hb] at h
        simp at h
    · rcases ih (rc + 1) e h with h | ⟨x, hx, he⟩
      · exact Or.inl h
      · exact Or.inr ⟨x, by simp [hx], he⟩

lemma modeALoop_commit_positions (q : Query) (bs : Nat) :
    ∀ (rows : List (List Value)) (rc : Nat) (pre post : List Event),
      modeALoop q bs rows rc ++ [Event.commit] = pre ++ Event.commit :: post →
      (rc + countExecs pre) % bs = 0 ∨ countExecs pre = rows.length := by
  intro rows
  induction rows with
  | nil =>
    intro rc pre post h
    simp only [modeALoop, List.nil_append] at h
    cases pre with
    | nil => right; simp [countExecs]
    | cons a t =>
      rw [List.cons_append] at h
      injection h with h1 h2
      exact absurd h2.symm (by simp)
  | cons r rs ih =>
    intro rc pre post h
    by_cases hb : (rc + 1) % bs = 0
    · rw [show modeALoop q bs (r :: rs) rc
          = Event.exec q r :: ([Event.commit] ++ modeALoop q bs rs (rc + 1)) from by
            simp [modeALoop, hb]] at h
      rw [List.cons_append, List.singleton_append, List.cons_append] at h
      cases pre with
      | nil =>
        rw [List.nil_append] at h
        injection h with h1 h2
        exact Event.noConfusion h1
      | cons a t =>
        rw [List.cons_append] at h
        injection h with h1 h2
        cases t with
        | nil =>
          left
          subst h1
          rw [List.nil_append] at h2
          simpa [countExecs] using hb
        | cons b t2 =>
          rw [List.cons_append] at h2
          injection h2 with h3 h4
          subst h1
          subst h3
          rcases ih (rc + 1) t2 post h4 with hres | hres
          · left
            have harr : rc + countExecs (Event.exec q r :: Event.commit :: t2)
                = rc + 1 + countExecs t2 := by
              simp only [countExecs]
              omega
            rw [harr]
            exact hres
          · right
            simp [countExecs, hres]
    · rw [show modeALoop q bs (r :: rs) rc
          = Event.exec q r :: modeALoop q bs rs (rc + 1) from by
            simp [modeALoop, hb]] at h
      rw [List.cons_append] at h
      cases pre with
      | nil =>
        rw [List.nil_append] at h
        injection h with h1 h2
        exact Event.noConfusion h1
      | cons a t =>
        rw [List.cons_append] at h
        injection h with h1 h2
        subst h1
        rcases ih (rc + 1) t post h2 with hres | hres
        · left
          have harr : rc + countExecs (Event.exec q r :: t) = rc + 1 + countExecs t := by
            simp only [countExecs]
            omega
          rw [harr]
          exact hres
        · right
          simp [countExecs, hres]

lemma modeBLoop_trace (q : Query) (cols ucols : List String) (bs : Nat) :
    ∀ (rows : List (List Value)) (db : Table) (rc : Nat),
      (modeBLoop q cols ucols bs rows db rc).2.2 = modeALoop q bs rows rc := by
  intro rows
  induction rows with
  | nil => intro db rc; simp [modeBLoop, modeALoop]
  | cons r rs ih => intro db rc; simp [modeBLoop, modeALoop, ih]

lemma modeBLoop_ids_length (q : Query) (cols ucols : List String) (bs : Nat) :
    ∀ (rows : List (List Value)) (db : Table) (rc : Nat),
      (modeBLoop q cols ucols bs rows db rc).1.length = rows.length := by
  intro rows
  induction rows with
  | nil => intro db rc; simp [modeBLoop]
  | cons r rs ih => intro db rc; simp [modeBLoop, ih]

lemma insert_multi_rows_modeA_eq
    (df : DataFrame) (tn : String) (cns : List String) (tys : List Ty) (db : Table)
    (ucs : Option (List String)) (bs : Nat) (dvs : List (List Value))
    (hnulls : df.hasNulls = false)
    (hc : cns.length = df.cols.length) (ht : tys.length = df.cols.length)
    (hcoerce : coerceRows tys df.rows = Except.ok dvs) :
    insert_multi_rows df tn cns tys db false ucs bs
      = ⟨false, Except.ok none, df,
          modeALoop (Query.insertOnConflictDoNothing tn cns) bs dvs 0
            ++ [Event.commit], db⟩ := by
  simp [insert_multi_rows, hnulls, hc, ht, hcoerce]

lemma insert_multi_rows_modeB_eq
    (df : DataFrame) (tn : String) (cns : List String) (tys : List Ty) (db : Table)
    (ucs : Option (List String)) (bs : Nat) (uc0 : String) (ucr : List String)
    (dvs : List (List Value))
    (hnulls : df.hasNulls = false)
    (hc : cns.length = df.cols.length) (ht : tys.length = df.cols.length)
    (hcoerce : coerceRows tys df.rows = Except.ok dvs)
    (hucs : pyList ucs = uc0 :: ucr) :
    insert_multi_rows df tn cns tys db true ucs bs
      = ⟨false,
          Except.ok (some (df.setColumn "ID"
            (modeBLoop (Query.insertOnConflictUpdateSelfReturning tn cns
                (uc0 :: ucr) uc0 "ID") cns (uc0 :: ucr) bs dvs db 0).1)),
          df,
          (modeBLoop (Query.insertOnConflictUpdateSelfReturning tn cns
            (uc0 :: ucr) uc0 "ID") cns (uc0 :: ucr) bs dvs db 0).2.2
            ++ [Event.commit],
          (modeBLoop (Query.insertOnConflictUpdateSelfReturning tn cns
            (uc0 :: ucr) uc0 "ID") cns (uc0 :: ucr) bs dvs db 0).2.1⟩ := by
  simp [insert_multi_rows, hnulls, hc, ht, hcoerce, hucs]

/-! Claim theorems. -/

/-- Claim C9: verify_db_write_status returns the logical AND of its boolean
arguments, vacuously true on the empty sequence; in particular it maps the
empty sequence to true, two trues to true and a true and a false to false.
It is a pure function of its argument list, so it has no side effects or
failure mode. -/
theorem verify_db_write_status_is_logical_and :
    (∀ args : List Bool, verify_db_write_status args
        = args.foldr (fun a b => a && b) true)
    ∧ verify_db_write_status [] = true
    ∧ verify_db_write_status [true, true] = true
    ∧ verify_db_write_status [true, false] = false := by
  refine ⟨?_, rfl, rfl, rfl⟩
  intro args
  induction args with
  | nil => rfl
  | cons a t ih =>
    simp only [verify_db_write_status, List.all_cons, List.foldr_cons] at ih ⊢
    rw [ih]
    rfl

/-- Counterexample for claim C5: a batch containing a null with two column
names against its one field. The null check of line 69 runs before the
count checks, and its logging call references the undefined name logger,
so the call fails with NameError, not with the InvalidArgument naming the
mismatched count that the claim asserts (still with zero cursor calls). -/
theorem insert_multi_rows_count_mismatch_counterexample :
    (insert_multi_rows ⟨["a"], [[Value.vnull]]⟩ "t" ["a", "b"] [tyAny] ⟨[], 1⟩
      false none 1000000).outcome
      = Except.error (Err.nameError "name logger is not defined")
    ∧ (Except.error (Err.nameError "name logger is not defined")
          : Except Err (Option DataFrame))
      ≠ Except.error (Err.invalidArgument
          "Number of column names does not match the number of columns in the DataFrame.")
    ∧ (insert_multi_rows ⟨["a"], [[Value.vnull]]⟩ "t" ["a", "b"] [tyAny] ⟨[], 1⟩
        false none 1000000).trace = [] := by
  decide

/-- Claim C5 as amended: when the batch contains no null values and the
column-name count or the type count differs from the per-record field
count, insert_multi_rows raises ValueError with a message naming the
mismatched count (column names being checked first), and no statement is
ever executed on the cursor. -/
theorem insert_multi_rows_count_mismatch_raises_before_query
    (df : DataFrame) (tn : String) (cns : List String) (tys : List Ty) (db : Table)
    (rwi : Bool) (ucs : Option (List String)) (bs : Nat) (r : RunResult)
    (hr : r = insert_multi_rows df tn cns tys db rwi ucs bs)
    (hnulls : df.hasNulls = false)
    (h : cns.length ≠ df.cols.length ∨ tys.length ≠ df.cols.length) :
    r.outcome = Except.error (Err.invalidArgument
      (if cns.length ≠ df.cols.length then
        "Number of column names does not match the number of columns in the DataFrame."
      else
        "Number of types does not match the number of columns in the DataFrame."))
    ∧ r.trace = [] := by
  subst hr
  by_cases h1 : cns.length = df.cols.length
  · have h2 : tys.length ≠ df.cols.length := by tauto
    simp [insert_multi_rows, hnulls, h1, h2]
  · simp [insert_multi_rows, hnulls, h1]

/-- Witness for claim C5 at a concrete input: two column names against a
null-free one-column batch. -/
theorem insert_multi_rows_count_mismatch_witness :
    (insert_multi_rows ⟨["a"], [[Value.vint 1]]⟩ "t" ["a", "b"] [tyInt] ⟨[], 1⟩
      false none 10).outcome
      = Except.error (Err.invalidArgument
          "Number of column names does not match the number of columns in the DataFrame.")
    ∧ (insert_multi_rows ⟨["a"], [[Value.vint 1]]⟩ "t" ["a", "b"] [tyInt] ⟨[], 1⟩
        false none 10).trace = [] := by
  have h := insert_multi_rows_count_mismatch_raises_before_query
    ⟨["a"], [[Value.vint 1]]⟩ "t" ["a", "b"] [tyInt] ⟨[], 1⟩ false none 10 _ rfl
    (by decide) (Or.inl (by decide))
  rwa [if_pos (by decide)] at h

/-- Counterexample for claim C6: a batch containing a null, with matching
counts, a coercion that accepts every value, return_with_ids set and
unique_columns absent. The claim asserts the call fails with the
unique-columns InvalidArgument, but the null check of line 69 runs first
and its logging call references the undefined name logger, so the call
fails with NameError. -/
theorem insert_multi_rows_unique_columns_counterexample :
    (insert_multi_rows ⟨["a"], [[Value.vnull]]⟩ "t" ["a"] [tyAny] ⟨[], 1⟩
      true none 1000000).outcome
      = Except.error (Err.nameError "name logger is not defined")
    ∧ (Except.error (Err.nameError "name logger is not defined")
          : Except Err (Option DataFrame))
      ≠ Except.error (Err.invalidArgument
          "unique_columns must be provided when return_with_ids is True")
    ∧ (insert_multi_rows ⟨["a"], [[Value.vnull]]⟩ "t" ["a"] [tyAny] ⟨[], 1⟩
        true none 1000000).trace = [] := by
  decide

/-- Claim C6 as amended: calling insert_multi_rows on a batch without null
values with return_with_ids set and an absent or empty unique-key column
list raises ValueError before any statement is executed on the cursor
(given that the call passes the earlier count checks and value coercion,
which precede this check in the source). -/
theorem insert_multi_rows_missing_unique_columns_raises_before_query
    (df : DataFrame) (tn : String) (cns : List String) (tys : List Ty) (db : Table)
    (ucs : Option (List String)) (bs : Nat) (r : RunResult) (dvs : List (List Value))
    (hr : r = insert_multi_rows df tn cns tys db true ucs bs)
    (hnulls : df.hasNulls = false)
    (hc : cns.length = df.cols.length) (ht : tys.length = df.cols.length)
    (hcoerce : coerceRows tys df.rows = Except.ok dvs)
    (hu : ucs = none ∨ ucs = some []) :
    r.outcome = Except.error (Err.invalidArgument
      "unique_columns must be provided when return_with_ids is True")
    ∧ r.trace = [] := by
  subst hr
  have hpy : pyList ucs = ([] : List String) := by
    rcases hu with h | h <;> simp [h, pyList]
  simp [insert_multi_rows, hnulls, hc, ht, hcoerce, hpy]

/-- Witness for claim C6 at a concrete input: return_with_ids with
unique_columns absent. -/
theorem insert_multi_rows_missing_unique_columns_witness :
    (insert_multi_rows ⟨["a"], [[Value.vint 1]]⟩ "t" ["a"] [tyInt] ⟨[], 1⟩
      true none 10).outcome
      = Except.error (Err.invalidArgument
          "unique_columns must be provided when return_with_ids is True")
    ∧ (insert_multi_rows ⟨["a"], [[Value.vint 1]]⟩ "t" ["a"] [tyInt] ⟨[], 1⟩
        true none 10).trace = [] :=
  insert_multi_rows_missing_unique_columns_raises_before_query
    ⟨["a"], [[Value.vint 1]]⟩ "t" ["a"] [tyInt] ⟨[], 1⟩ none 10 _ [[Value.vint 1]]
    rfl (by decide) (by decide) (by decide) (by decide) (Or.inl rfl)

/-- Counterexample for claim C8: a batch whose only value is null with the
integer coercion and matching counts. The claim asserts the coercion
failure (TypeCoercionError on the null) is the outcome, but the null check
of line 69 runs before coercion and its logging call references the
undefined name logger, so the call fails with NameError and coercion never
runs. -/
theorem insert_multi_rows_coercion_counterexample :
    coerceRow [tyInt] [Value.vnull] = Except.error (Err.typeCoercion Value.vnull)
    ∧ (insert_multi_rows ⟨["a"], [[Value.vnull]]⟩ "t" ["a"] [tyInt] ⟨[], 1⟩
        false none 1000000).outcome
      = Except.error (Err.nameError "name logger is not defined")
    ∧ (Except.error (Err.nameError "name logger is not defined")
          : Except Err (Option DataFrame))
      ≠ Except.error (Err.typeCoercion Value.vnull)
    ∧ (insert_multi_rows ⟨["a"], [[Value.vnull]]⟩ "t" ["a"] [tyInt] ⟨[], 1⟩
        false none 1000000).trace = [] := by
  decide

/-- Claim C8 as amended: for a batch without null values, values are coerced
to their declared column types before any insertion: a coercion failure
becomes the outcome of the call, carrying the offending value, with zero
statements executed on the cursor; and on success every executed statement
carries a coerced record of the batch as its arguments. -/
theorem insert_multi_rows_coercion_before_db_work
    (df : DataFrame) (tn : String) (cns : List String) (tys : List Ty) (db : Table)
    (rwi : Bool) (ucs : Option (List String)) (bs : Nat) (r : RunResult)
    (hr : r = insert_multi_rows df tn cns tys db rwi ucs bs)
    (hnulls : df.hasNulls = false)
    (hc : cns.length = df.cols.length) (ht : tys.length = df.cols.length) :
    (∀ v, coerceRows tys df.rows = Except.error (Err.typeCoercion v) →
        r.outcome = Except.error (Err.typeCoercion v) ∧ r.trace = [])
    ∧ (∀ dvs, coerceRows tys df.rows = Except.ok dvs →
        ∀ q args, Event.exec q args ∈ r.trace → args ∈ dvs) := by
  subst hr
  constructor
  · intro v hv
    simp [insert_multi_rows, hnulls, hc, ht, hv]
  · intro dvs hdvs q args hmem
    cases rwi with
    | true =>
      rcases hucs : pyList ucs with _ | ⟨uc0, ucr⟩
      · simp [insert_multi_rows, hnulls, hc, ht, hdvs, hucs] at hmem
      · have htr : (insert_multi_rows df tn cns tys db true ucs bs).trace
            = modeALoop (Query.insertOnConflictUpdateSelfReturning tn cns
                (uc0 :: ucr) uc0 "ID") bs dvs 0 ++ [Event.commit] := by
          simp [insert_multi_rows, hnulls, hc, ht, hdvs, hucs, modeBLoop_trace]
        rw [htr] at hmem
        rcases List.mem_append.mp hmem with hm | hm
        · rcases modeALoop_mem _ _ dvs 0 _ hm with he | ⟨x, hx, he⟩
          · exact absurd he (by simp)
          · injection he with hq hargs
            rw [hargs]
            exact hx
        · simp at hm
    | false =>
      have htr : (insert_multi_rows df tn cns tys db false ucs bs).trace
          = modeALoop (Query.insertOnConflictDoNothing tn cns) bs dvs 0
            ++ [Event.commit] := by
        simp [insert_multi_rows, hnulls, hc, ht, hdvs]
      rw [htr] at hmem
      rcases List.mem_append.mp hmem with hm | hm
      · rcases modeALoop_mem _ _ dvs 0 _ hm with he | ⟨x, hx, he⟩
        · exact absurd he (by simp)
        · injection he with hq hargs
          rw [hargs]
          exact hx
      · simp at hm

/-- Witness for claim C8 at a concrete input: a string value that fails
integer coercion is the outcome and nothing reaches the cursor. -/
theorem insert_multi_rows_coercion_before_db_work_witness :
    (insert_multi_rows ⟨["a"], [[Value.vstr "x"]]⟩ "t" ["a"] [tyInt] ⟨[], 1⟩
      false none 10).outcome = Except.error (Err.typeCoercion (Value.vstr "x"))
    ∧ (insert_multi_rows ⟨["a"], [[Value.vstr "x"]]⟩ "t" ["a"] [tyInt] ⟨[], 1⟩
        false none 10).trace = [] :=
  (insert_multi_rows_coercion_before_db_work
    ⟨["a"], [[Value.vstr "x"]]⟩ "t" ["a"] [tyInt] ⟨[], 1⟩ false none 10 _ rfl
    (by decide) (by decide) (by decide)).1 (Value.vstr "x") (by decide)

/-- Claim C3 (evaluation at the failing input): a one-column batch whose
only value is null, with matching column-name and type counts. The claim
says such a batch is permitted, a non-fatal warning is emitted and the
insert proceeds, but the source module never defines logger, so the
warning call of line 70 raises NameError: no warning is logged, the call
aborts, and nothing ever reaches the cursor. -/
theorem insert_multi_rows_null_batch_name_error :
    (insert_multi_rows ⟨["a"], [[Value.vnull]]⟩ "t" ["a"] [tyAny] ⟨[], 1⟩
      false none 1000000).outcome
      = Except.error (Err.nameError "name logger is not defined")
    ∧ (insert_multi_rows ⟨["a"], [[Value.vnull]]⟩ "t" ["a"] [tyAny] ⟨[], 1⟩
        false none 1000000).warned = false
    ∧ (insert_multi_rows ⟨["a"], [[Value.vnull]]⟩ "t" ["a"] [tyAny] ⟨[], 1⟩
        false none 1000000).trace = [] := by
  decide


/-- Claim C4: in either mode, under a positive commit interval and
well-formed arguments (in particular a null-free batch, since a batch
containing nulls aborts with NameError at the undefined-logger warning
line before any row is processed), the call trace ends with the final
commit, executes one statement per record, issues exactly one commit per
full interval plus the final one, and every commit in the trace sits
immediately after a number of executed statements that is a multiple of
the interval or equals the whole batch. -/
theorem insert_multi_rows_commit_discipline
    (df : DataFrame) (tn : String) (cns : List String) (tys : List Ty) (db : Table)
    (rwi : Bool) (ucs : Option (List String)) (bs : Nat) (r : RunResult)
    (dvs : List (List Value))
    (hr : r = insert_multi_rows df tn cns tys db rwi ucs bs)
    (hbs : 0 < bs)
    (hnulls : df.hasNulls = false)
    (hc : cns.length = df.cols.length) (ht : tys.length = df.cols.length)
    (hcoerce : coerceRows tys df.rows = Except.ok dvs)
    (hguard : rwi = true → pyList ucs ≠ []) :
    r.trace.getLast? = some Event.commit
    ∧ countExecs r.trace = dvs.length
    ∧ countCommits r.trace = dvs.length / bs + 1
    ∧ ∀ pre post, r.trace = pre ++ Event.commit :: post →
        countExecs pre % bs = 0 ∨ countExecs pre = dvs.length := by
  subst hr
  have htr : ∃ q, (insert_multi_rows df tn cns tys db rwi ucs bs).trace
      = modeALoop q bs dvs 0 ++ [Event.commit] := by
    cases rwi with
    | false =>
      exact ⟨_, by
        rw [insert_multi_rows_modeA_eq df tn cns tys db ucs bs dvs hnulls hc ht hcoerce]⟩
    | true =>
      rcases hucs : pyList ucs with _ | ⟨uc0, ucr⟩
      · exact absurd hucs (hguard rfl)
      · refine ⟨Query.insertOnConflictUpdateSelfReturning tn cns (uc0 :: ucr) uc0 "ID", ?_⟩
        rw [insert_multi_rows_modeB_eq df tn cns tys db ucs bs uc0 ucr dvs hnulls hc ht hcoerce hucs]
        simp [modeBLoop_trace]
  obtain ⟨q, htr⟩ := htr
  rw [htr]
  have hcc := modeALoop_countCommits q bs dvs 0
  simp only [Nat.zero_div, Nat.add_zero, Nat.zero_add] at hcc
  refine ⟨getLast?_append_singleton _ _, ?_, ?_, ?_⟩
  · rw [countExecs_append]
    simp [modeALoop_countExecs, countExecs]
  · rw [countCommits_append]
    simp [countCommits, hcc]
  · intro pre post hdec
    have hpos := modeALoop_commit_positions q bs dvs 0 pre post hdec
    simpa using hpos

/-- Witness for claim C4 at a concrete input: five rows with a commit
interval of two. -/
theorem insert_multi_rows_commit_discipline_witness :
    (insert_multi_rows
      ⟨["a"], [[Value.vint 1], [Value.vint 2], [Value.vint 3], [Value.vint 4], [Value.vint 5]]⟩
      "t" ["a"] [tyInt] ⟨[], 1⟩ false none 2).trace.getLast? = some Event.commit
    ∧ countExecs (insert_multi_rows
        ⟨["a"], [[Value.vint 1], [Value.vint 2], [Value.vint 3], [Value.vint 4], [Value.vint 5]]⟩
        "t" ["a"] [tyInt] ⟨[], 1⟩ false none 2).trace
      = ([[Value.vint 1], [Value.vint 2], [Value.vint 3], [Value.vint 4], [Value.vint 5]]
          : List (List Value)).length
    ∧ countCommits (insert_multi_rows
        ⟨["a"], [[Value.vint 1], [Value.vint 2], [Value.vint 3], [Value.vint 4], [Value.vint 5]]⟩
        "t" ["a"] [tyInt] ⟨[], 1⟩ false none 2).trace
      = ([[Value.vint 1], [Value.vint 2], [Value.vint 3], [Value.vint 4], [Value.vint 5]]
          : List (List Value)).length / 2 + 1
    ∧ ∀ pre post, (insert_multi_rows
        ⟨["a"], [[Value.vint 1], [Value.vint 2], [Value.vint 3], [Value.vint 4], [Value.vint 5]]⟩
        "t" ["a"] [tyInt] ⟨[], 1⟩ false none 2).trace = pre ++ Event.commit :: post →
        countExecs pre % 2 = 0 ∨ countExecs pre
          = ([[Value.vint 1], [Value.vint 2], [Value.vint 3], [Value.vint 4], [Value.vint 5]]
              : List (List Value)).length :=
  insert_multi_rows_commit_discipline
    ⟨["a"], [[Value.vint 1], [Value.vint 2], [Value.vint 3], [Value.vint 4], [Value.vint 5]]⟩
    "t" ["a"] [tyInt] ⟨[], 1⟩ false none 2 _
    [[Value.vint 1], [Value.vint 2], [Value.vint 3], [Value.vint 4], [Value.vint 5]]
    rfl (by decide) (by decide) (by decide) (by decide) (by decide)
    (fun h => absurd h (by decide))

/-- Counterexample for claim C1 at two explicit inputs. First, a null-free
batch whose first column is the ID column itself, upserting against a
table that already holds a conflicting row with ID 1: the call returns the
batch with the existing identifier written over the original ID value 7,
so the returned value is not the original batch with the identifiers
appended. Second, a batch containing a null: the claim promises an
identifier per record and a returned batch, but the call aborts with
NameError at the undefined-logger warning line. -/
theorem insert_multi_rows_mode_b_returned_batch_counterexample :
    (insert_multi_rows ⟨["ID", "name"], [[Value.vint 7, Value.vstr "a"]]⟩ "t"
      ["ID", "name"] [tyAny, tyAny] ⟨[(Value.vint 1, [Value.vint 1, Value.vstr "a"])], 2⟩
      true (some ["name"]) 1000000).outcome
      = Except.ok (some ⟨["ID", "name"], [[Value.vint 1, Value.vstr "a"]]⟩)
    ∧ (⟨["ID", "name"], [[Value.vint 1, Value.vstr "a"]]⟩ : DataFrame)
        ≠ appendColumn ⟨["ID", "name"], [[Value.vint 7, Value.vstr "a"]]⟩ "ID"
            [Value.vint 1]
    ∧ (insert_multi_rows ⟨["x"], [[Value.vnull]]⟩ "t" ["x"] [tyAny] ⟨[], 1⟩
        true (some ["x"]) 1000000).outcome
      = Except.error (Err.nameError "name logger is not defined") := by
  decide

/-- Claim C1 as amended: in mode B, on a null-free batch with well-formed
arguments, a single upsert statement is used that on conflict on the
unique-key columns updates the first unique-key column to its own excluded
value and returns the ID column; every input record, fresh or
pre-existing, yields exactly one identifier; and the returned value is a
copy of the original batch with the identifiers stored in an ID field in
input order, appended as a new last column when the batch has no ID column
(and overwriting the existing ID column otherwise). -/
theorem insert_multi_rows_mode_b_upsert_ids
    (df : DataFrame) (tn : String) (cns : List String) (tys : List Ty) (db : Table)
    (ucs : Option (List String)) (bs : Nat) (uc0 : String) (ucr : List String)
    (r : RunResult) (dvs : List (List Value))
    (hr : r = insert_multi_rows df tn cns tys db true ucs bs)
    (hnulls : df.hasNulls = false)
    (hc : cns.length = df.cols.length) (ht : tys.length = df.cols.length)
    (hcoerce : coerceRows tys df.rows = Except.ok dvs)
    (hucs : pyList ucs = uc0 :: ucr) :
    ∃ ids : List Value,
      ids.length = df.rows.length
      ∧ r.outcome = Except.ok (some (df.setColumn "ID" ids))
      ∧ (df.cols.contains "ID" = false →
          df.setColumn "ID" ids = appendColumn df "ID" ids)
      ∧ (∀ e ∈ r.trace, e = Event.commit
          ∨ ∃ row ∈ dvs, e = Event.exec
              (Query.insertOnConflictUpdateSelfReturning tn cns (uc0 :: ucr) uc0 "ID")
              row) := by
  subst hr
  rw [insert_multi_rows_modeB_eq df tn cns tys db ucs bs uc0 ucr dvs hnulls hc ht hcoerce hucs]
  refine ⟨(modeBLoop (Query.insertOnConflictUpdateSelfReturning tn cns
      (uc0 :: ucr) uc0 "ID") cns (uc0 :: ucr) bs dvs db 0).1, ?_, rfl, ?_, ?_⟩
  · rw [modeBLoop_ids_length]
    exact coerceRows_length tys df.rows dvs hcoerce
  · intro hid
    simp only [DataFrame.setColumn, appendColumn]
    rw [if_neg (by simpa using hid)]
  · intro e he
    simp only [modeBLoop_trace] at he
    rcases List.mem_append.mp he with hm | hm
    · rcases modeALoop_mem _ _ dvs 0 _ hm with hcm | ⟨x, hx, hex⟩
      · exact Or.inl hcm
      · exact Or.inr ⟨x, hx, hex⟩
    · exact Or.inl (by simpa using hm)

/-- Witness for the amended claim C1 at a concrete input: three records over
one unique column where the third record repeats the first key, so it
receives the same identifier from the upsert. -/
theorem insert_multi_rows_mode_b_upsert_ids_witness :
    ∃ ids : List Value,
      ids.length = ([[Value.vstr "a"], [Value.vstr "b"], [Value.vstr "a"]]
        : List (List Value)).length
      ∧ (insert_multi_rows ⟨["name"], [[Value.vstr "a"], [Value.vstr "b"], [Value.vstr "a"]]⟩
          "t" ["name"] [tyAny] ⟨[], 1⟩ true (some ["name"]) 1000000).outcome
        = Except.ok (some ((⟨["name"], [[Value.vstr "a"], [Value.vstr "b"], [Value.vstr "a"]]⟩
            : DataFrame).setColumn "ID" ids))
      ∧ ((⟨["name"], [[Value.vstr "a"], [Value.vstr "b"], [Value.vstr "a"]]⟩
            : DataFrame).cols.contains "ID" = false →
          (⟨["name"], [[Value.vstr "a"], [Value.vstr "b"], [Value.vstr "a"]]⟩
            : DataFrame).setColumn "ID" ids
            = appendColumn ⟨["name"], [[Value.vstr "a"], [Value.vstr "b"], [Value.vstr "a"]]⟩
                "ID" ids)
      ∧ (∀ e ∈ (insert_multi_rows
            ⟨["name"], [[Value.vstr "a"], [Value.vstr "b"], [Value.vstr "a"]]⟩
            "t" ["name"] [tyAny] ⟨[], 1⟩ true (some ["name"]) 1000000).trace,
          e = Event.commit
          ∨ ∃ row ∈ ([[Value.vstr "a"], [Value.vstr "b"], [Value.vstr "a"]]
              : List (List Value)),
              e = Event.exec (Query.insertOnConflictUpdateSelfReturning "t" ["name"]
                ["name"] "name" "ID") row) :=
  insert_multi_rows_mode_b_upsert_ids
    ⟨["name"], [[Value.vstr "a"], [Value.vstr "b"], [Value.vstr "a"]]⟩
    "t" ["name"] [tyAny] ⟨[], 1⟩ (some ["name"]) 1000000 "name" [] _
    [[Value.vstr "a"], [Value.vstr "b"], [Value.vstr "a"]]
    rfl (by decide) (by decide) (by decide) (by decide) (by decide)

/-- Claim C10: the caller-supplied DataFrame is never mutated by
insert_multi_rows: after any call its value is unchanged; in mode A no
DataFrame is ever returned; and whenever a DataFrame is returned it is a
copy of the input with the ID column written, not the input object. -/
theorem insert_multi_rows_input_not_mutated
    (df : DataFrame) (tn : String) (cns : List String) (tys : List Ty) (db : Table)
    (rwi : Bool) (ucs : Option (List String)) (bs : Nat) (r : RunResult)
    (hr : r = insert_multi_rows df tn cns tys db rwi ucs bs) :
    r.inputAfter = df
    ∧ (rwi = false → ∀ d, r.outcome ≠ Except.ok (some d))
    ∧ (∀ d, r.outcome = Except.ok (some d) → ∃ ids, d = df.setColumn "ID" ids) := by
  subst hr
  cases hnulls : df.hasNulls with
  | true => simp [insert_multi_rows, hnulls]
  | false =>
  by_cases h1 : cns.length = df.cols.length
  · by_cases h2 : tys.length = df.cols.length
    · cases hcoerce : coerceRows tys df.rows with
      | error e => simp [insert_multi_rows, hnulls, h1, h2, hcoerce]
      | ok dvs =>
        cases rwi with
        | false =>
          rw [insert_multi_rows_modeA_eq df tn cns tys db ucs bs dvs hnulls h1 h2 hcoerce]
          simp
        | true =>
          rcases hucs : pyList ucs with _ | ⟨uc0, ucr⟩
          · simp [insert_multi_rows, hnulls, h1, h2, hcoerce, hucs]
          · rw [insert_multi_rows_modeB_eq df tn cns tys db ucs bs uc0 ucr dvs hnulls h1 h2 hcoerce hucs]
            refine ⟨rfl, by simp, ?_⟩
            intro d hd
            simp only [Except.ok.injEq, Option.some.injEq] at hd
            exact ⟨_, hd.symm⟩
    · simp [insert_multi_rows, hnulls, h1, h2]
  · simp [insert_multi_rows, hnulls, h1]

/-- Witness for claim C10 at a concrete input: the input DataFrame is intact
after a mode-A call, which returns no DataFrame. -/
theorem insert_multi_rows_input_not_mutated_witness :
    (insert_multi_rows ⟨["name"], [[Value.vstr "a"]]⟩ "t" ["name"] [tyAny] ⟨[], 1⟩
      false none 10).inputAfter = ⟨["name"], [[Value.vstr "a"]]⟩
    ∧ (false = false → ∀ d,
        (insert_multi_rows ⟨["name"], [[Value.vstr "a"]]⟩ "t" ["name"] [tyAny] ⟨[], 1⟩
          false none 10).outcome ≠ Except.ok (some d))
    ∧ (∀ d, (insert_multi_rows ⟨["name"], [[Value.vstr "a"]]⟩ "t" ["name"] [tyAny] ⟨[], 1⟩
        false none 10).outcome = Except.ok (some d) →
        ∃ ids, d = (⟨["name"], [[Value.vstr "a"]]⟩ : DataFrame).setColumn "ID" ids) :=
  insert_multi_rows_input_not_mutated
    ⟨["name"], [[Value.vstr "a"]]⟩ "t" ["name"] [tyAny] ⟨[], 1⟩ false none 10 _ rfl

/-- Claim C2: with the extra-key arguments supplied consistently, the scope
reconciler succeeds, and the set of insert statements it executes is the
image of exactly the set difference universe minus existing; each statement
inserts the row whose key columns are the identifier, the partition key and
the extra fixed keys, whose insert-argument columns are all zero, and whose
conflict clause ignores conflicts on the full key tuple. -/
theorem check_in_scope_entries_inserts_missing_set
    (tt dc ic : String) (ias : List String) (creds : String) (db : ScopeDB)
    (did : Value) (fil : Option Value) (fks : Option (List String))
    (fvs : Option (List Value)) (r : ScopeResult)
    (hr : r = check_in_scope_entries tt dc ic ias creds db did fil fks fvs)
    (hboth : fks.isSome = fvs.isSome)
    (hlen : (pyList fks).length = (pyList fvs).length) :
    r.outcome = Except.ok ()
    ∧ r.inserts
      = (scopeUniverse db did \ scopeExisting db dc ic did (pyList fks) (pyList fvs)).image
          (scopeInsertStmt tt dc ic ias did (pyList fks) (pyList fvs))
    ∧ ∀ sku, scopeInsertStmt tt dc ic ias did (pyList fks) (pyList fvs) sku
        = ⟨tt, [ic, dc] ++ ias ++ pyList fks,
            [sku, did] ++ List.replicate ias.length (Value.vint 0) ++ pyList fvs,
            [ic, dc] ++ pyList fks⟩ := by
  subst hr
  have hguard : ¬ (fks.isNone ≠ fvs.isNone) := by
    cases fks <;> cases fvs <;> simp_all
  have hsel : (pyTruthy fks && !((pyList fks).length == (pyList fvs).length)) = false := by
    simp [hlen]
  unfold check_in_scope_entries
  rw [if_neg hguard]
  simp only [hsel, Bool.false_eq_true, if_false]
  by_cases hmiss : scopeUniverse db did \ scopeExisting db dc ic did (pyList fks) (pyList fvs) = ∅
  · rw [if_pos hmiss]
    refine ⟨rfl, ?_, fun sku => rfl⟩
    rw [hmiss, Finset.image_empty]
  · rw [if_neg hmiss, if_neg (by simp [hlen])]
    exact ⟨rfl, rfl, fun sku => rfl⟩

/-- Witness for claim C2 at a concrete input: universe of identifiers 1, 2,
3 for dataset 9, with 2 already present in the target table. -/
theorem check_in_scope_entries_inserts_missing_set_witness :
    (check_in_scope_entries "tt" "datasetID" "skuID" ["demand"] "creds"
      ⟨[(Value.vint 1, Value.vint 9), (Value.vint 2, Value.vint 9), (Value.vint 3, Value.vint 9)],
       [[("skuID", Value.vint 2), ("datasetID", Value.vint 9)]]⟩
      (Value.vint 9) none none none).outcome = Except.ok ()
    ∧ (check_in_scope_entries "tt" "datasetID" "skuID" ["demand"] "creds"
        ⟨[(Value.vint 1, Value.vint 9), (Value.vint 2, Value.vint 9), (Value.vint 3, Value.vint 9)],
         [[("skuID", Value.vint 2), ("datasetID", Value.vint 9)]]⟩
        (Value.vint 9) none none none).inserts
      = (scopeUniverse
            ⟨[(Value.vint 1, Value.vint 9), (Value.vint 2, Value.vint 9), (Value.vint 3, Value.vint 9)],
             [[("skuID", Value.vint 2), ("datasetID", Value.vint 9)]]⟩ (Value.vint 9)
          \ scopeExisting
              ⟨[(Value.vint 1, Value.vint 9), (Value.vint 2, Value.vint 9), (Value.vint 3, Value.vint 9)],
               [[("skuID", Value.vint 2), ("datasetID", Value.vint 9)]]⟩
              "datasetID" "skuID" (Value.vint 9) (pyList none) (pyList none)).image
          (scopeInsertStmt "tt" "datasetID" "skuID" ["demand"] (Value.vint 9)
            (pyList none) (pyList none))
    ∧ ∀ sku, scopeInsertStmt "tt" "datasetID" "skuID" ["demand"] (Value.vint 9)
        (pyList none) (pyList none) sku
        = ⟨"tt", ["skuID", "datasetID"] ++ ["demand"] ++ pyList none,
            [sku, Value.vint 9] ++ List.replicate (["demand"] : List String).length (Value.vint 0)
              ++ pyList none,
            ["skuID", "datasetID"] ++ pyList none⟩ :=
  check_in_scope_entries_inserts_missing_set "tt" "datasetID" "skuID" ["demand"] "creds"
    ⟨[(Value.vint 1, Value.vint 9), (Value.vint 2, Value.vint 9), (Value.vint 3, Value.vint 9)],
     [[("skuID", Value.vint 2), ("datasetID", Value.vint 9)]]⟩
    (Value.vint 9) none none none _ rfl rfl rfl

/-- Claim C7: supplying exactly one of the two extra-primary-key arguments
makes check_in_scope_entries raise ValueError with no database work done
(no SELECT executed, nothing inserted), while supplying both or neither
passes this precondition (that error is never the outcome). -/
theorem check_in_scope_entries_fk_precondition
    (tt dc ic : String) (ias : List String) (creds : String) (db : ScopeDB)
    (did : Value) (fil : Option Value) (fks : Option (List String))
    (fvs : Option (List Value)) (r : ScopeResult)
    (hr : r = check_in_scope_entries tt dc ic ias creds db did fil fks fvs) :
    (fks.isSome ≠ fvs.isSome →
        r.outcome = Except.error (Err.invalidArgument
          "Both further_primary_keys and further_primary_keys_values must be provided together.")
        ∧ r.selectCount = 0 ∧ r.inserts = ∅)
    ∧ (fks.isSome = fvs.isSome →
        r.outcome ≠ Except.error (Err.invalidArgument
          "Both further_primary_keys and further_primary_keys_values must be provided together.")) := by
  subst hr
  constructor
  · intro h
    have hg : fks.isNone ≠ fvs.isNone := by
      cases fks <;> cases fvs <;> simp_all
    unfold check_in_scope_entries
    rw [if_pos hg]
    exact ⟨rfl, rfl, rfl⟩
  · intro h
    have hg : ¬ (fks.isNone ≠ fvs.isNone) := by
      cases fks <;> cases fvs <;> simp_all
    unfold check_in_scope_entries
    rw [if_neg hg]
    dsimp only
    split
    · simp
    · split
      · simp
      · split
        · simp
        · simp

/-- Witness for claim C7 at a concrete input: key names supplied without
values is rejected before any database work; supplying neither passes. -/
theorem check_in_scope_entries_fk_precondition_witness :
    ((check_in_scope_entries "tt" "d" "s" [] "c" ⟨[], []⟩ (Value.vint 9) none
        (some ["p"]) none).outcome
      = Except.error (Err.invalidArgument
          "Both further_primary_keys and further_primary_keys_values must be provided together.")
      ∧ (check_in_scope_entries "tt" "d" "s" [] "c" ⟨[], []⟩ (Value.vint 9) none
          (some ["p"]) none).selectCount = 0
      ∧ (check_in_scope_entries "tt" "d" "s" [] "c" ⟨[], []⟩ (Value.vint 9) none
          (some ["p"]) none).inserts = ∅)
    ∧ (check_in_scope_entries "tt" "d" "s" [] "c" ⟨[], []⟩ (Value.vint 9) none
        none none).outcome
      ≠ Except.error (Err.invalidArgument
          "Both further_primary_keys and further_primary_keys_values must be provided together.") :=
  ⟨(check_in_scope_entries_fk_precondition "tt" "d" "s" [] "c" ⟨[], []⟩ (Value.vint 9)
      none (some ["p"]) none _ rfl).1 (by decide),
   (check_in_scope_entries_fk_precondition "tt" "d" "s" [] "c" ⟨[], []⟩ (Value.vint 9)
      none none none _ rfl).2 rfl⟩

end InvSdk
